import Mathlib

/-!
Shallow embedding of the concrete-calculator estimation engine
(`js/calculators.js`) over exact rational arithmetic.  JavaScript numbers
are modelled as `ℚ`; `Math.PI` is the exact rational value of the IEEE-754
double `3.141592653589793`; `Math.ceil` is `Int.ceil`.  Inputs the source
destructures without a default (so that they may be `undefined`) are
modelled as `Option ℚ`; inputs with a default are plain values.  The
JavaScript truthiness test `!x || x <= 0` on a numeric input is `none`,
or `some v` with `v ≤ 0`.  Calculators return a tagged `CalcResult`:
`invalid` with the reason string, or `valid` with the numeric results
record (the purely descriptive formula-trace strings are not modelled).
-/

namespace ConcreteCalc

/-- Bags per cubic metre (`CONSTANTS.BAGS_PER_CUBIC_METRE`). -/
def BAGS_PER_CUBIC_METRE : ℚ := 108

/-- Default wastage percentage (`CONSTANTS.DEFAULT_WASTAGE`). -/
def DEFAULT_WASTAGE : ℚ := 10

/-- Minimum bag price in AUD (`CONSTANTS.BAG_PRICE_MIN = 8.50`). -/
def BAG_PRICE_MIN : ℚ := 17/2

/-- Maximum bag price in AUD (`CONSTANTS.BAG_PRICE_MAX = 12.50`). -/
def BAG_PRICE_MAX : ℚ := 25/2

/-- Global ready-mix minimum price per m³ (`CONSTANTS.READYMIX_PRICE_MIN`). -/
def READYMIX_PRICE_MIN : ℚ := 200

/-- Global ready-mix maximum price per m³ (`CONSTANTS.READYMIX_PRICE_MAX`). -/
def READYMIX_PRICE_MAX : ℚ := 420

/-- Minimum ready-mix order volume in m³ (`CONSTANTS.READYMIX_MINIMUM_ORDER = 0.5`). -/
def READYMIX_MINIMUM_ORDER : ℚ := 1/2

/-- The exact rational value of the IEEE-754 double `Math.PI`
(`3.141592653589793`, i.e. `884279719003555 * 2^-48`). -/
def PI : ℚ := 884279719003555 / 281474976710656

/-- A price range in AUD, the `{ min, max }` records of
`CONSTANTS.READYMIX_PRICES` and of bag cost results. -/
structure PriceRange where
  min : ℚ
  max : ℚ
deriving DecidableEq, Repr, Inhabited

/-- Per-state ready-mix price table (`CONSTANTS.READYMIX_PRICES`); `none`
for a state code that is not in the table. -/
def READYMIX_PRICES : String → Option PriceRange
  | "nsw" => some ⟨250, 380⟩
  | "vic" => some ⟨240, 360⟩
  | "qld" => some ⟨230, 350⟩
  | "wa"  => some ⟨260, 400⟩
  | "sa"  => some ⟨240, 370⟩
  | "tas" => some ⟨280, 420⟩
  | "nt"  => some ⟨300, 450⟩
  | "act" => some ⟨250, 380⟩
  | _     => none

/-- The source's `applyWastage(volume, wastagePercent)`. -/
def applyWastage (volume wastagePercent : ℚ) : ℚ :=
  volume * (1 + wastagePercent / 100)

/-- The source's `calculateBags(volume)`:
`Math.ceil(volume * CONSTANTS.BAGS_PER_CUBIC_METRE)`. -/
def calculateBags (volume : ℚ) : ℤ :=
  ⌈volume * BAGS_PER_CUBIC_METRE⌉

/-- The source's `calculateBagCost(bags, priceMin, priceMax)`. -/
def calculateBagCost (bags : ℤ) (priceMin priceMax : ℚ) : PriceRange :=
  ⟨bags * priceMin, bags * priceMax⟩

/-- Result record of `calculateReadymixCost`:
`{ min, max, volume, hasMinimumApplied }`. -/
structure ReadymixCost where
  min : ℚ
  max : ℚ
  volume : ℚ
  hasMinimumApplied : Bool
deriving DecidableEq, Repr, Inhabited

/-- Price range chosen by `calculateReadymixCost`: the state's table entry
when a state code is supplied and recognized, else the global default
range.  Mirrors `state && CONSTANTS.READYMIX_PRICES[state] ? ... : ...`
(an absent or unrecognized state code selects the default). -/
def readymixPricing : Option String → PriceRange
  | some s => (READYMIX_PRICES s).getD ⟨READYMIX_PRICE_MIN, READYMIX_PRICE_MAX⟩
  | none => ⟨READYMIX_PRICE_MIN, READYMIX_PRICE_MAX⟩

/-- The source's `calculateReadymixCost(volume, state)`. -/
def calculateReadymixCost (volume : ℚ) (state : Option String) : ReadymixCost :=
  let pricing := readymixPricing state
  let orderVolume := max volume READYMIX_MINIMUM_ORDER
  ⟨orderVolume * pricing.min, orderVolume * pricing.max, orderVolume,
    decide (volume < READYMIX_MINIMUM_ORDER)⟩

/-- Tagged calculator outcome: `{valid: false, error}` or
`{valid: true, results}`. -/
inductive CalcResult (α : Type) where
  | invalid (error : String) : CalcResult α
  | valid (results : α) : CalcResult α
deriving DecidableEq, Repr

/-- The `valid` flag of a calculator outcome. -/
def CalcResult.isValid {α : Type} : CalcResult α → Bool
  | .valid _ => true
  | .invalid _ => false

/-- Results record of a valid outcome, or the default record when invalid. -/
def CalcResult.get {α : Type} [Inhabited α] : CalcResult α → α
  | .valid r => r
  | .invalid _ => default

/-- Shape discriminator for posts and columns: the source compares the
shape string with `'round'` and treats anything else as square. -/
inductive Shape where
  | round : Shape
  | square : Shape
deriving DecidableEq, Repr

/-- Results record of `calculateRectangularSlab` and
`calculateCircularSlab`. -/
structure SlabResults where
  baseVolume : ℚ
  totalVolume : ℚ
  bags : ℤ
  bagCost : PriceRange
  readymixCost : ReadymixCost
deriving DecidableEq, Repr, Inhabited

/-- The source's `calculateRectangularSlab({length, width, depth, wastage})`. -/
def calculateRectangularSlab (length width depth : Option ℚ) (wastage : ℚ) :
    CalcResult SlabResults :=
  match length, width, depth with
  | some l, some w, some d =>
    if l ≤ 0 ∨ w ≤ 0 ∨ d ≤ 0 then
      .invalid "Please enter valid positive dimensions"
    else
      let baseVolume := l * w * d
      let totalVolume := applyWastage baseVolume wastage
      let bags := calculateBags totalVolume
      .valid ⟨baseVolume, totalVolume, bags,
        calculateBagCost bags BAG_PRICE_MIN BAG_PRICE_MAX,
        calculateReadymixCost totalVolume none⟩
  | _, _, _ => .invalid "Please enter valid positive dimensions"

/-- Cylindrical hole volume of `calculatePostHole`:
`PI * holeRadius^2 * holeDepth` with `holeRadius = holeDiameter / 2`. -/
def phHoleVolume (holeDiameter holeDepth : ℚ) : ℚ :=
  PI * (holeDiameter / 2) ^ 2 * holeDepth

/-- Post volume subtracted by `calculatePostHole`: `0` unless
`postWidth > 0`; then `PI * (postWidth/2)^2 * holeDepth` for a round post
and `postWidth * postWidth * holeDepth` for a square post. -/
def phPostVolume (postWidth holeDepth : ℚ) (postShape : Shape) : ℚ :=
  if 0 < postWidth then
    match postShape with
    | .round => PI * (postWidth / 2) ^ 2 * holeDepth
    | .square => postWidth * postWidth * holeDepth
  else 0

/-- Results record of `calculatePostHole`. -/
structure PostHoleResults where
  holeVolume : ℚ
  postVolume : ℚ
  concretePerHole : ℚ
  baseVolume : ℚ
  totalVolume : ℚ
  bags : ℤ
  bagCost : PriceRange
  readymixCost : ReadymixCost
deriving DecidableEq, Repr, Inhabited

/-- The source's `calculatePostHole({holeDiameter, holeDepth, postWidth,
postCount, postShape, wastage})`. -/
def calculatePostHole (holeDiameter holeDepth : Option ℚ)
    (postWidth postCount : ℚ) (postShape : Shape) (wastage : ℚ) :
    CalcResult PostHoleResults :=
  match holeDiameter, holeDepth with
  | some hd, some hdep =>
    if hd ≤ 0 ∨ hdep ≤ 0 ∨ postCount < 1 then
      .invalid "Please enter valid positive dimensions"
    else
      let holeVolume := phHoleVolume hd hdep
      let postVolume := phPostVolume postWidth hdep postShape
      let concretePerHole := holeVolume - postVolume
      let baseVolume := concretePerHole * postCount
      let totalVolume := applyWastage baseVolume wastage
      let bags := calculateBags totalVolume
      .valid ⟨holeVolume, postVolume, concretePerHole, baseVolume, totalVolume,
        bags, calculateBagCost bags BAG_PRICE_MIN BAG_PRICE_MAX,
        calculateReadymixCost totalVolume none⟩
  | _, _ => .invalid "Please enter valid positive dimensions"

/-- Results record of `calculateFooting`. -/
structure FootingResults where
  volumePerFooting : ℚ
  baseVolume : ℚ
  totalVolume : ℚ
  bags : ℤ
  bagCost : PriceRange
  readymixCost : ReadymixCost
deriving DecidableEq, Repr, Inhabited

/-- The source's `calculateFooting({length, width, depth, footingCount,
wastage})`. -/
def calculateFooting (length width depth : Option ℚ) (footingCount wastage : ℚ) :
    CalcResult FootingResults :=
  match length, width, depth with
  | some l, some w, some d =>
    if l ≤ 0 ∨ w ≤ 0 ∨ d ≤ 0 ∨ footingCount < 1 then
      .invalid "Please enter valid positive dimensions"
    else
      let volumePerFooting := l * w * d
      let baseVolume := volumePerFooting * footingCount
      let totalVolume := applyWastage baseVolume wastage
      let bags := calculateBags totalVolume
      .valid ⟨volumePerFooting, baseVolume, totalVolume, bags,
        calculateBagCost bags BAG_PRICE_MIN BAG_PRICE_MAX,
        calculateReadymixCost totalVolume none⟩
  | _, _, _ => .invalid "Please enter valid positive dimensions"

/-- Results record of `calculateColumn`. -/
structure ColumnResults where
  volumePerColumn : ℚ
  baseVolume : ℚ
  totalVolume : ℚ
  bags : ℤ
  bagCost : PriceRange
  readymixCost : ReadymixCost
deriving DecidableEq, Repr, Inhabited

/-- The source's `calculateColumn({shape, diameter, width, depth, height,
columnCount, wastage})`.  `diameter`, `width` and `depth` default to `0` in
the source, so they are plain values; `height` has no default. -/
def calculateColumn (shape : Shape) (diameter width depth : ℚ)
    (height : Option ℚ) (columnCount wastage : ℚ) : CalcResult ColumnResults :=
  match height with
  | some h =>
    if h ≤ 0 ∨ columnCount < 1 then
      .invalid "Please enter valid positive dimensions"
    else
      match shape with
      | .round =>
        if diameter ≤ 0 then .invalid "Please enter a valid diameter"
        else
          let volumePerColumn := PI * (diameter / 2) ^ 2 * h
          let baseVolume := volumePerColumn * columnCount
          let totalVolume := applyWastage baseVolume wastage
          let bags := calculateBags totalVolume
          .valid ⟨volumePerColumn, baseVolume, totalVolume, bags,
            calculateBagCost bags BAG_PRICE_MIN BAG_PRICE_MAX,
            calculateReadymixCost totalVolume none⟩
      | .square =>
        if width ≤ 0 then .invalid "Please enter valid width"
        else
          let columnDepth := if 0 < depth then depth else width
          let volumePerColumn := width * columnDepth * h
          let baseVolume := volumePerColumn * columnCount
          let totalVolume := applyWastage baseVolume wastage
          let bags := calculateBags totalVolume
          .valid ⟨volumePerColumn, baseVolume, totalVolume, bags,
            calculateBagCost bags BAG_PRICE_MIN BAG_PRICE_MAX,
            calculateReadymixCost totalVolume none⟩
  | none => .invalid "Please enter valid positive dimensions"

/-- The source's `calculateCircularSlab({diameter, thickness, wastage})`. -/
def calculateCircularSlab (diameter thickness : Option ℚ) (wastage : ℚ) :
    CalcResult SlabResults :=
  match diameter, thickness with
  | some dia, some th =>
    if dia ≤ 0 ∨ th ≤ 0 then
      .invalid "Please enter valid positive dimensions"
    else
      let baseVolume := PI * (dia / 2) ^ 2 * th
      let totalVolume := applyWastage baseVolume wastage
      let bags := calculateBags totalVolume
      .valid ⟨baseVolume, totalVolume, bags,
        calculateBagCost bags BAG_PRICE_MIN BAG_PRICE_MAX,
        calculateReadymixCost totalVolume none⟩
  | _, _ => .invalid "Please enter valid positive dimensions"

/-- Recommendation tag of the comparator (and its `cheaperOption` field). -/
inductive Recommendation where
  | bags : Recommendation
  | readymix : Recommendation
  | either : Recommendation
deriving DecidableEq, Repr, Inhabited

/-- A cost record with an average: `{min, max, avg}`. -/
structure CostWithAvg where
  min : ℚ
  max : ℚ
  avg : ℚ
deriving DecidableEq, Repr, Inhabited

/-- Effective minimum bag price of the comparator:
`bagPrice || CONSTANTS.BAG_PRICE_MIN` (a `0` bag price is falsy). -/
def comparatorBagPriceMin : Option ℚ → ℚ
  | some p => if p = 0 then BAG_PRICE_MIN else p
  | none => BAG_PRICE_MIN

/-- Effective maximum bag price of the comparator:
`bagPrice || CONSTANTS.BAG_PRICE_MAX` (a `0` bag price is falsy). -/
def comparatorBagPriceMax : Option ℚ → ℚ
  | some p => if p = 0 then BAG_PRICE_MAX else p
  | none => BAG_PRICE_MAX

/-- Mean bag cost used by the comparator:
`bags * (bagPriceMin + bagPriceMax) / 2`. -/
def comparatorBagAvg (volume : ℚ) (bagPrice : Option ℚ) : ℚ :=
  calculateBags volume * (comparatorBagPriceMin bagPrice + comparatorBagPriceMax bagPrice) / 2

/-- Mean ready-mix cost used by the comparator:
`(readymixCost.min + readymixCost.max) / 2`. -/
def comparatorReadymixAvg (volume : ℚ) (state : Option String) : ℚ :=
  ((calculateReadymixCost volume state).min + (calculateReadymixCost volume state).max) / 2

/-- Results record of `compareBagsVsReadymix`. -/
structure ComparisonResults where
  bagsQuantity : ℤ
  bagCost : CostWithAvg
  bagsLabourHours : ℚ
  bagsWeight : ℚ
  readymixVolume : ℚ
  readymixCost : CostWithAvg
  hasMinimumApplied : Bool
  costDifference : ℚ
  cheaperOption : Recommendation
  recommendation : Recommendation
deriving DecidableEq, Repr, Inhabited

/-- The source's `compareBagsVsReadymix({volume, state, bagPrice})` (the
generated reason strings are not modelled). -/
def compareBagsVsReadymix (volume : Option ℚ) (state : Option String)
    (bagPrice : Option ℚ) : CalcResult ComparisonResults :=
  match volume with
  | some v =>
    if v ≤ 0 then .invalid "Please enter a valid volume"
    else
      let bags := calculateBags v
      let bagPriceMin := comparatorBagPriceMin bagPrice
      let bagPriceMax := comparatorBagPriceMax bagPrice
      let bagCost : CostWithAvg :=
        ⟨bags * bagPriceMin, bags * bagPriceMax, bags * (bagPriceMin + bagPriceMax) / 2⟩
      let rm := calculateReadymixCost v state
      let rmAvg := (rm.min + rm.max) / 2
      let costDifference := bagCost.avg - rmAvg
      let bagsLabourHours := bags * (1/20)
      let recommendation : Recommendation :=
        if v < 3/10 then .bags
        else if v < 8/10 then
          if costDifference > 50 then .readymix else .either
        else .readymix
      .valid ⟨bags, bagCost, bagsLabourHours, bags * 20, rm.volume,
        ⟨rm.min, rm.max, rmAvg⟩, rm.hasMinimumApplied, costDifference,
        if costDifference > 0 then .readymix else .bags, recommendation⟩
  | none => .invalid "Please enter a valid volume"

/-- JavaScript badness of a required numeric input: missing (`undefined`),
zero (falsy) or negative — the guard `!x || x <= 0`. -/
def dimBad : Option ℚ → Bool
  | none => true
  | some v => decide (v ≤ 0)

lemma PI_pos : 0 < PI := by norm_num [PI]

lemma applyWastage_lt_self (v wa : ℚ) (hv : 0 < v) (hwa : wa < 0) :
    applyWastage v wa < v := by
  unfold applyWastage
  nlinarith

lemma applyWastage_nonpos (v wa : ℚ) (hv : 0 ≤ v) (hwa : wa ≤ -100) :
    applyWastage v wa ≤ 0 := by
  unfold applyWastage
  nlinarith

/-- C5: `calculateBags(v)` equals exactly `ceil(v × 108)`, is an integer by
construction (its codomain is `ℤ`), and is monotonically non-decreasing
in `v`. -/
theorem C5_calculateBags_ceil_monotone :
    (∀ v : ℚ, calculateBags v = ⌈v * 108⌉)
    ∧ ∀ v w : ℚ, v ≤ w → calculateBags v ≤ calculateBags w := by
  constructor
  · intro v
    rfl
  · intro v w h
    refine Int.ceil_le_ceil ?_
    unfold BAGS_PER_CUBIC_METRE
    nlinarith

/-- Witness for C5 at `v = 33/25`, `w = 2`. -/
theorem C5_witness :
    calculateBags (33/25) = ⌈(33/25 : ℚ) * 108⌉
    ∧ (33/25 : ℚ) ≤ 2 ∧ calculateBags (33/25) ≤ calculateBags 2 :=
  ⟨C5_calculateBags_ceil_monotone.1 (33/25), by norm_num,
    C5_calculateBags_ceil_monotone.2 (33/25) 2 (by norm_num)⟩

/-- C8: the slab scenario 3 m × 4 m × 0.1 m at 10% wastage produces a valid
result with base volume `1.2 = 6/5` m³, total volume `1.32 = 33/25` m³
(exact in the rational model, hence within any floating-point tolerance)
and exactly `ceil(1.32 × 108) = 143` bags. -/
theorem C8_slab_scenario :
    (calculateRectangularSlab (some 3) (some 4) (some (1/10)) 10).isValid = true
    ∧ ((calculateRectangularSlab (some 3) (some 4) (some (1/10)) 10).get).baseVolume = 6/5
    ∧ ((calculateRectangularSlab (some 3) (some 4) (some (1/10)) 10).get).totalVolume = 33/25
    ∧ ((calculateRectangularSlab (some 3) (some 4) (some (1/10)) 10).get).bags = 143 := by
  refine ⟨?_, ?_, ?_, ?_⟩ <;>
      simp [calculateRectangularSlab, applyWastage, calculateBags,
        BAGS_PER_CUBIC_METRE, CalcResult.get, CalcResult.isValid] <;>
    norm_num [Int.ceil_eq_iff]

/-- C4: for every volume `v`, `calculateReadymixCost` bills
`max(v, 0.5)` (the minimum order), sets `hasMinimumApplied` exactly when
`v < 0.5`, and prices the billed volume with the selected range: the
state's table entry when a recognized region code is supplied, the global
default range `[200, 420]` otherwise. -/
theorem C4_readymix_billing (v : ℚ) (state : Option String) :
    (calculateReadymixCost v state).volume = max v (1/2)
    ∧ ((calculateReadymixCost v state).hasMinimumApplied = true ↔ v < 1/2)
    ∧ (calculateReadymixCost v state).min = max v (1/2) * (readymixPricing state).min
    ∧ (calculateReadymixCost v state).max = max v (1/2) * (readymixPricing state).max
    ∧ (∀ s pr, state = some s → READYMIX_PRICES s = some pr →
        readymixPricing state = pr)
    ∧ (∀ s, state = some s → READYMIX_PRICES s = none →
        readymixPricing state = ⟨READYMIX_PRICE_MIN, READYMIX_PRICE_MAX⟩)
    ∧ (state = none →
        readymixPricing state = ⟨READYMIX_PRICE_MIN, READYMIX_PRICE_MAX⟩) := by
  refine ⟨rfl, ?_, rfl, rfl, ?_, ?_, ?_⟩
  · simp [calculateReadymixCost, READYMIX_MINIMUM_ORDER]
  · intro s pr hs hpr
    subst hs
    simp [readymixPricing, hpr]
  · intro s hs hpr
    subst hs
    simp [readymixPricing, hpr]
  · intro hs
    subst hs
    rfl

/-- Witness for C4 at `v = 3/10` with the recognized region code `nsw`. -/
theorem C4_witness :
    (calculateReadymixCost (3/10) (some "nsw")).volume = max (3/10) (1/2)
    ∧ ((calculateReadymixCost (3/10) (some "nsw")).hasMinimumApplied = true
        ↔ (3/10 : ℚ) < 1/2)
    ∧ READYMIX_PRICES "nsw" = some ⟨250, 380⟩
    ∧ readymixPricing (some "nsw") = (⟨250, 380⟩ : PriceRange)
    ∧ (calculateReadymixCost (3/10) (some "nsw")).min = max (3/10) (1/2) * 250 := by
  have h := C4_readymix_billing (3/10) (some "nsw")
  have hsel : readymixPricing (some "nsw") = (⟨250, 380⟩ : PriceRange) :=
    h.2.2.2.2.1 "nsw" ⟨250, 380⟩ rfl rfl
  refine ⟨h.1, h.2.1, rfl, hsel, ?_⟩
  rw [h.2.2.1, hsel]

/-- C6: every shape calculator returns a tagged `invalid` value carrying a
reason string — and, being a total Lean function, never throws — whenever a
required dimension is missing, zero or negative, or a count is below one;
the `invalid` constructor carries no result fields. -/
theorem C6_invalid_on_bad_input :
    (∀ length width depth wastage,
      (dimBad length = true ∨ dimBad width = true ∨ dimBad depth = true) →
      ∃ e, calculateRectangularSlab length width depth wastage = .invalid e)
    ∧ (∀ holeDiameter holeDepth pw pc shape wastage,
      (dimBad holeDiameter = true ∨ dimBad holeDepth = true ∨ pc < 1) →
      ∃ e, calculatePostHole holeDiameter holeDepth pw pc shape wastage = .invalid e)
    ∧ (∀ length width depth fc wastage,
      (dimBad length = true ∨ dimBad width = true ∨ dimBad depth = true ∨ fc < 1) →
      ∃ e, calculateFooting length width depth fc wastage = .invalid e)
    ∧ (∀ shape dia w dep height cc wastage,
      (dimBad height = true ∨ cc < 1 ∨ (shape = Shape.round ∧ dia ≤ 0)
        ∨ (shape = Shape.square ∧ w ≤ 0)) →
      ∃ e, calculateColumn shape dia w dep height cc wastage = .invalid e)
    ∧ (∀ dia th wastage,
      (dimBad dia = true ∨ dimBad th = true) →
      ∃ e, calculateCircularSlab dia th wastage = .invalid e) := by
  refine ⟨?_, ?_, ?_, ?_, ?_⟩
  · intro length width depth wastage hbad
    rcases length with _ | l <;> rcases width with _ | w <;> rcases depth with _ | d
    all_goals try exact ⟨_, rfl⟩
    simp only [dimBad, decide_eq_true_eq] at hbad
    simp only [calculateRectangularSlab]
    rw [if_pos hbad]
    exact ⟨_, rfl⟩
  · intro holeDiameter holeDepth pw pc shape wastage hbad
    rcases holeDiameter with _ | hd <;> rcases holeDepth with _ | hdep
    all_goals try exact ⟨_, rfl⟩
    simp only [dimBad, decide_eq_true_eq] at hbad
    simp only [calculatePostHole]
    rw [if_pos hbad]
    exact ⟨_, rfl⟩
  · intro length width depth fc wastage hbad
    rcases length with _ | l <;> rcases width with _ | w <;> rcases depth with _ | d
    all_goals try exact ⟨_, rfl⟩
    simp only [dimBad, decide_eq_true_eq] at hbad
    simp only [calculateFooting]
    rw [if_pos hbad]
    exact ⟨_, rfl⟩
  · intro shape dia w dep height cc wastage hbad
    rcases height with _ | h
    · exact ⟨_, rfl⟩
    simp only [dimBad, decide_eq_true_eq] at hbad
    simp only [calculateColumn]
    by_cases hc : h ≤ 0 ∨ cc < 1
    · rw [if_pos hc]
      exact ⟨_, rfl⟩
    · rw [if_neg hc]
      cases shape
      · rcases hbad with hbad | hbad | ⟨_, hd0⟩ | ⟨hsq, _⟩
        · exact absurd (Or.inl hbad) hc
        · exact absurd (Or.inr hbad) hc
        · rw [if_pos hd0]
          exact ⟨_, rfl⟩
        · exact absurd hsq (by simp)
      · rcases hbad with hbad | hbad | ⟨hrd, _⟩ | ⟨_, hw0⟩
        · exact absurd (Or.inl hbad) hc
        · exact absurd (Or.inr hbad) hc
        · exact absurd hrd (by simp)
        · rw [if_pos hw0]
          exact ⟨_, rfl⟩
  · intro dia th wastage hbad
    rcases dia with _ | dv <;> rcases th with _ | tv
    all_goals try exact ⟨_, rfl⟩
    simp only [dimBad, decide_eq_true_eq] at hbad
    simp only [calculateCircularSlab]
    rw [if_pos hbad]
    exact ⟨_, rfl⟩

/-- Witness for C6: a missing slab length, a zero hole depth, a footing
count of zero, a round column with negative diameter, and a negative
circular-slab thickness all yield `invalid`. -/
theorem C6_witness :
    (∃ e, calculateRectangularSlab none (some 1) (some 1) 10 = .invalid e)
    ∧ (∃ e, calculatePostHole (some (3/10)) (some 0) 0 1 Shape.square 10 = .invalid e)
    ∧ (∃ e, calculateFooting (some 1) (some 1) (some 1) 0 10 = .invalid e)
    ∧ (∃ e, calculateColumn Shape.round (-1) 0 0 (some 2) 1 10 = .invalid e)
    ∧ (∃ e, calculateCircularSlab (some 1) (some (-1/10)) 10 = .invalid e) :=
  ⟨C6_invalid_on_bad_input.1 none (some 1) (some 1) 10 (Or.inl rfl),
    C6_invalid_on_bad_input.2.1 (some (3/10)) (some 0) 0 1 Shape.square 10
      (Or.inr (Or.inl (by norm_num [dimBad]))),
    C6_invalid_on_bad_input.2.2.1 (some 1) (some 1) (some 1) 0 10
      (Or.inr (Or.inr (Or.inr (by norm_num)))),
    C6_invalid_on_bad_input.2.2.2.1 Shape.round (-1) 0 0 (some 2) 1 10
      (Or.inr (Or.inr (Or.inl ⟨rfl, by norm_num⟩))),
    C6_invalid_on_bad_input.2.2.2.2 (some 1) (some (-1/10)) 10
      (Or.inr (by norm_num [dimBad]))⟩

/-- C7: for every valid post-hole input, the post volume is subtracted from
the hole volume per hole before multiplying by the post count and before
wastage, and the bag count rounds up exactly once, on the combined
wastage-applied total:
`bags = ceil(postCount × (holeVolume − postVolume) × (1 + wastage/100) × 108)`. -/
theorem C7_subtract_first_round_once (hd hdep pw pc wastage : ℚ) (shape : Shape)
    (h1 : 0 < hd) (h2 : 0 < hdep) (h3 : 1 ≤ pc) :
    ((calculatePostHole (some hd) (some hdep) pw pc shape wastage).get).concretePerHole
      = phHoleVolume hd hdep - phPostVolume pw hdep shape
    ∧ ((calculatePostHole (some hd) (some hdep) pw pc shape wastage).get).baseVolume
      = (phHoleVolume hd hdep - phPostVolume pw hdep shape) * pc
    ∧ ((calculatePostHole (some hd) (some hdep) pw pc shape wastage).get).totalVolume
      = applyWastage ((phHoleVolume hd hdep - phPostVolume pw hdep shape) * pc) wastage
    ∧ ((calculatePostHole (some hd) (some hdep) pw pc shape wastage).get).bags
      = ⌈pc * (phHoleVolume hd hdep - phPostVolume pw hdep shape) * (1 + wastage / 100) * 108⌉ := by
  have hcond : ¬(hd ≤ 0 ∨ hdep ≤ 0 ∨ pc < 1) := by
    push_neg
    exact ⟨h1, h2, h3⟩
  refine ⟨?_, ?_, ?_, ?_⟩ <;>
    simp only [calculatePostHole, if_neg hcond, CalcResult.get]
  · simp only [calculateBags, applyWastage, BAGS_PER_CUBIC_METRE]
    congr 1
    ring

/-- Witness for C7: the spec's end-to-end scenario 2 (hole 300 mm × 600 mm,
square 100 mm post, one post, 10% wastage) yields exactly 5 bags. -/
theorem C7_witness :
    ((calculatePostHole (some (3/10)) (some (3/5)) (1/10) 1 Shape.square 10).get).bags = 5 := by
  have h := (C7_subtract_first_round_once (3/10) (3/5) (1/10) 1 10 Shape.square
    (by norm_num) (by norm_num) (by norm_num)).2.2.2
  rw [h]
  rw [Int.ceil_eq_iff]
  norm_num [phHoleVolume, phPostVolume, PI]

/-- C3: for every valid comparator input, the recommendation is `bags`
below 0.3 m³ regardless of cost, `readymix` at or above 0.8 m³ regardless
of cost, and in between it is `readymix` exactly when the mean ready-mix
cost is more than $50 cheaper than the mean bag cost, `either` otherwise. -/
theorem C3_comparator_recommendation (v : ℚ) (state : Option String)
    (bagPrice : Option ℚ) (hv : 0 < v) :
    (compareBagsVsReadymix (some v) state bagPrice).isValid = true
    ∧ (v < 3/10 →
        ((compareBagsVsReadymix (some v) state bagPrice).get).recommendation
          = Recommendation.bags)
    ∧ (3/10 ≤ v → v < 8/10 →
        (((compareBagsVsReadymix (some v) state bagPrice).get).recommendation
            = Recommendation.readymix
          ↔ comparatorReadymixAvg v state + 50 < comparatorBagAvg v bagPrice)
        ∧ (¬ comparatorReadymixAvg v state + 50 < comparatorBagAvg v bagPrice →
            ((compareBagsVsReadymix (some v) state bagPrice).get).recommendation
              = Recommendation.either))
    ∧ (8/10 ≤ v →
        ((compareBagsVsReadymix (some v) state bagPrice).get).recommendation
          = Recommendation.readymix) := by
  have hneg : ¬ v ≤ 0 := not_le.mpr hv
  refine ⟨?_, ?_, ?_, ?_⟩
  · simp [compareBagsVsReadymix, if_neg hneg, CalcResult.isValid]
  · intro hlt
    simp only [compareBagsVsReadymix, if_neg hneg, CalcResult.get]
    rw [if_pos hlt]
  · intro hlo hhi
    have hv3 : ¬ v < 3/10 := not_lt.mpr hlo
    simp only [compareBagsVsReadymix, if_neg hneg, CalcResult.get]
    rw [if_neg hv3, if_pos hhi]
    split_ifs with hcd
    · refine ⟨⟨fun _ => ?_, fun _ => rfl⟩, fun hn => absurd ?_ hn⟩ <;>
        · simp only [comparatorBagAvg, comparatorReadymixAvg]
          linarith
    · refine ⟨⟨fun hcontr => ?_, fun hr => ?_⟩, fun _ => rfl⟩
      · exact absurd hcontr (by simp)
      · exfalso
        simp only [comparatorBagAvg, comparatorReadymixAvg] at hr
        linarith
  · intro hge
    have hv3 : ¬ v < 3/10 := by
      intro h
      linarith
    have hv8 : ¬ v < 8/10 := not_lt.mpr hge
    simp only [compareBagsVsReadymix, if_neg hneg, CalcResult.get]
    rw [if_neg hv3, if_neg hv8]

/-- Witness for C3 at `v = 1/2` (mid band, default prices): the mean
ready-mix cost is more than $50 cheaper, so the recommendation is
`readymix`. -/
theorem C3_witness :
    (0:ℚ) < 1/2
    ∧ ((compareBagsVsReadymix (some (1/2)) none none).get).recommendation
        = Recommendation.readymix := by
  have h := C3_comparator_recommendation (1/2) none none (by norm_num)
  refine ⟨by norm_num, (h.2.2.1 (by norm_num) (by norm_num)).1.mpr ?_⟩
  have hb : calculateBags (1/2) = 54 := by
    unfold calculateBags BAGS_PER_CUBIC_METRE
    rw [Int.ceil_eq_iff]
    norm_num
  simp only [comparatorBagAvg, comparatorReadymixAvg, comparatorBagPriceMin,
    comparatorBagPriceMax, calculateReadymixCost, readymixPricing, hb]
  norm_num [READYMIX_PRICE_MIN, READYMIX_PRICE_MAX, READYMIX_MINIMUM_ORDER,
    BAG_PRICE_MIN, BAG_PRICE_MAX, max_def]

/-- C1 counterexample: a 300 mm hole, 600 mm deep, with a square
300 mm post has post volume `0.054 > π × 0.15² × 0.6 ≈ 0.0424` (net
concrete per hole negative), yet `calculatePostHole` returns a Valid
result, not an Invalid one — refuting the claim that such configurations
are rejected. -/
theorem C1_counterexample :
    phHoleVolume (3/10) (3/5) < phPostVolume (3/10) (3/5) Shape.square
    ∧ (calculatePostHole (some (3/10)) (some (3/5)) (3/10) 1 Shape.square 10).isValid
        = true := by
  constructor
  · norm_num [phHoleVolume, phPostVolume, PI]
  · have hcond : ¬((3/10 : ℚ) ≤ 0 ∨ (3/5 : ℚ) ≤ 0 ∨ (1 : ℚ) < 1) := by norm_num
    simp only [calculatePostHole, if_neg hcond]
    rfl

/-- C1 amended: `calculatePostHole` has no such guard — for every input
passing dimension validation whose subtracted post volume exceeds the
cylindrical hole volume, it returns a Valid result whose per-hole concrete
volume is negative. -/
theorem C1_no_negative_net_guard (hd hdep pw pc wastage : ℚ) (shape : Shape)
    (h1 : 0 < hd) (h2 : 0 < hdep) (h3 : 1 ≤ pc)
    (h4 : phHoleVolume hd hdep < phPostVolume pw hdep shape) :
    (calculatePostHole (some hd) (some hdep) pw pc shape wastage).isValid = true
    ∧ ((calculatePostHole (some hd) (some hdep) pw pc shape wastage).get).concretePerHole
        < 0 := by
  have hcond : ¬(hd ≤ 0 ∨ hdep ≤ 0 ∨ pc < 1) := by
    push_neg
    exact ⟨h1, h2, h3⟩
  constructor
  · simp [calculatePostHole, if_neg hcond, CalcResult.isValid]
  · simp only [calculatePostHole, if_neg hcond, CalcResult.get]
    linarith

/-- Witness for the amended C1 at the counterexample configuration. -/
theorem C1_witness :
    (0:ℚ) < 3/10 ∧ (0:ℚ) < 3/5 ∧ (1:ℚ) ≤ 1
    ∧ phHoleVolume (3/10) (3/5) < phPostVolume (3/10) (3/5) Shape.square
    ∧ ((calculatePostHole (some (3/10)) (some (3/5)) (3/10) 1 Shape.square 10).get).concretePerHole
        < 0 := by
  have hlt : phHoleVolume (3/10) (3/5) < phPostVolume (3/10) (3/5) Shape.square := by
    norm_num [phHoleVolume, phPostVolume, PI]
  exact ⟨by norm_num, by norm_num, le_refl 1, hlt,
    (C1_no_negative_net_guard (3/10) (3/5) (3/10) 1 10 Shape.square
      (by norm_num) (by norm_num) (le_refl 1) hlt).2⟩

/-- C2 counterexample: a square post with `postWidth = holeDiameter`
(400 mm post in a 400 mm hole, 500 mm deep) satisfies the claim's
hypothesis `postWidth ≤ holeDiameter`, yet the per-hole concrete volume is
negative (`0.08 > π × 0.2² × 0.5 ≈ 0.0628`) — refuting the claim for
square posts. -/
theorem C2_counterexample :
    (2/5 : ℚ) ≤ 2/5
    ∧ (calculatePostHole (some (2/5)) (some (1/2)) (2/5) 1 Shape.square 10).isValid = true
    ∧ ((calculatePostHole (some (2/5)) (some (1/2)) (2/5) 1 Shape.square 10).get).concretePerHole
        < 0 := by
  have hcond : ¬((2/5 : ℚ) ≤ 0 ∨ (1/2 : ℚ) ≤ 0 ∨ (1 : ℚ) < 1) := by norm_num
  refine ⟨le_refl _, ?_, ?_⟩
  · simp only [calculatePostHole, if_neg hcond]
    rfl
  · simp only [calculatePostHole, if_neg hcond, CalcResult.get]
    norm_num [phHoleVolume, phPostVolume, PI]

/-- C2 amended: with positive hole dimensions, a count of at least one and
non-negative wastage, the per-hole, base and total volumes are
non-negative provided the post cross-section fits the hole
cross-section: `postWidth ≤ holeDiameter` suffices for a round post, while
a square post needs `postWidth² ≤ π × (holeDiameter/2)²`. -/
theorem C2_nonneg_volumes (hd hdep pw pc wastage : ℚ) (shape : Shape)
    (h1 : 0 < hd) (h2 : 0 < hdep) (h3 : 1 ≤ pc) (h4 : 0 ≤ wastage)
    (h5 : shape = Shape.round → pw ≤ hd)
    (h6 : shape = Shape.square → pw ^ 2 ≤ PI * (hd / 2) ^ 2) :
    0 ≤ ((calculatePostHole (some hd) (some hdep) pw pc shape wastage).get).concretePerHole
    ∧ 0 ≤ ((calculatePostHole (some hd) (some hdep) pw pc shape wastage).get).baseVolume
    ∧ 0 ≤ ((calculatePostHole (some hd) (some hdep) pw pc shape wastage).get).totalVolume := by
  have hcond : ¬(hd ≤ 0 ∨ hdep ≤ 0 ∨ pc < 1) := by
    push_neg
    exact ⟨h1, h2, h3⟩
  have hpi := PI_pos
  have hhole : 0 ≤ PI * (hd / 2) ^ 2 * hdep :=
    mul_nonneg (mul_nonneg hpi.le (sq_nonneg (hd / 2))) h2.le
  have hnet : 0 ≤ phHoleVolume hd hdep - phPostVolume pw hdep shape := by
    unfold phHoleVolume phPostVolume
    split_ifs with hpw
    · cases shape
      · have hle := h5 rfl
        have hsq : (pw / 2) ^ 2 ≤ (hd / 2) ^ 2 := by nlinarith
        have : PI * (pw / 2) ^ 2 * hdep ≤ PI * (hd / 2) ^ 2 * hdep :=
          mul_le_mul_of_nonneg_right (mul_le_mul_of_nonneg_left hsq hpi.le) h2.le
        linarith
      · have hle := h6 rfl
        have hpw2 : pw * pw = pw ^ 2 := by ring
        have : pw * pw * hdep ≤ PI * (hd / 2) ^ 2 * hdep := by
          rw [hpw2]
          exact mul_le_mul_of_nonneg_right hle h2.le
        linarith
    · linarith
  have hpc : (0:ℚ) ≤ pc := by linarith
  have hfac : (0:ℚ) ≤ 1 + wastage / 100 := by linarith
  refine ⟨?_, ?_, ?_⟩ <;>
    simp only [calculatePostHole, if_neg hcond, CalcResult.get]
  · exact hnet
  · exact mul_nonneg hnet hpc
  · unfold applyWastage
    exact mul_nonneg (mul_nonneg hnet hpc) hfac

/-- Witness for the amended C2: a 100 mm square post in a 300 mm hole. -/
theorem C2_witness :
    (0:ℚ) < 3/10 ∧ (0:ℚ) < 3/5 ∧ (1:ℚ) ≤ 1 ∧ (0:ℚ) ≤ 10
    ∧ ((1/10 : ℚ) ^ 2 ≤ PI * ((3/10) / 2) ^ 2)
    ∧ 0 ≤ ((calculatePostHole (some (3/10)) (some (3/5)) (1/10) 1 Shape.square 10).get).concretePerHole := by
  have hfit : (1/10 : ℚ) ^ 2 ≤ PI * ((3/10) / 2) ^ 2 := by
    norm_num [PI]
  exact ⟨by norm_num, by norm_num, le_refl 1, by norm_num, hfit,
    (C2_nonneg_volumes (3/10) (3/5) (1/10) 1 10 Shape.square (by norm_num)
      (by norm_num) (le_refl 1) (by norm_num) (fun h => by cases h) (fun _ => hfit)).1⟩

/-- C9 counterexample: the post-hole calculator accepts wastage `-50` with
dimensions passing validation, but with a 300 mm square post in a 300 mm
hole the base (net) volume is negative, so the total volume is strictly
GREATER than the base volume — refuting the claim's universal
`total < base` for negative wastage. -/
theorem C9_counterexample :
    (-50 : ℚ) < 0
    ∧ (calculatePostHole (some (3/10)) (some (3/5)) (3/10) 1 Shape.square (-50)).isValid
        = true
    ∧ ((calculatePostHole (some (3/10)) (some (3/5)) (3/10) 1 Shape.square (-50)).get).baseVolume
        < ((calculatePostHole (some (3/10)) (some (3/5)) (3/10) 1 Shape.square (-50)).get).totalVolume := by
  have hcond : ¬((3/10 : ℚ) ≤ 0 ∨ (3/5 : ℚ) ≤ 0 ∨ (1 : ℚ) < 1) := by norm_num
  refine ⟨by norm_num, ?_, ?_⟩
  · simp only [calculatePostHole, if_neg hcond]
    rfl
  · simp only [calculatePostHole, if_neg hcond, CalcResult.get]
    norm_num [phHoleVolume, phPostVolume, applyWastage, PI]

/-- C9 amended: no calculator validates the wastage percent — any negative
wastage is accepted and yields a Valid result; the total volume is then
strictly below the base volume whenever the base volume is positive (which
is automatic for every calculator except the post-hole one, whose net base
volume can be negative), and the total volume is non-positive once
wastage ≤ −100, again given a positive base. -/
theorem C9_no_wastage_validation (wa : ℚ) (hwa : wa < 0) :
    (∀ l w d : ℚ, 0 < l → 0 < w → 0 < d →
      (calculateRectangularSlab (some l) (some w) (some d) wa).isValid = true
      ∧ ((calculateRectangularSlab (some l) (some w) (some d) wa).get).totalVolume
          < ((calculateRectangularSlab (some l) (some w) (some d) wa).get).baseVolume
      ∧ (wa ≤ -100 →
          ((calculateRectangularSlab (some l) (some w) (some d) wa).get).totalVolume ≤ 0))
    ∧ (∀ hd hdep pw pc : ℚ, ∀ shape : Shape, 0 < hd → 0 < hdep → 1 ≤ pc →
      (calculatePostHole (some hd) (some hdep) pw pc shape wa).isValid = true
      ∧ (0 < ((calculatePostHole (some hd) (some hdep) pw pc shape wa).get).baseVolume →
          ((calculatePostHole (some hd) (some hdep) pw pc shape wa).get).totalVolume
            < ((calculatePostHole (some hd) (some hdep) pw pc shape wa).get).baseVolume)
      ∧ (wa ≤ -100 →
          0 < ((calculatePostHole (some hd) (some hdep) pw pc shape wa).get).baseVolume →
          ((calculatePostHole (some hd) (some hdep) pw pc shape wa).get).totalVolume ≤ 0))
    ∧ (∀ l w d fc : ℚ, 0 < l → 0 < w → 0 < d → 1 ≤ fc →
      (calculateFooting (some l) (some w) (some d) fc wa).isValid = true
      ∧ ((calculateFooting (some l) (some w) (some d) fc wa).get).totalVolume
          < ((calculateFooting (some l) (some w) (some d) fc wa).get).baseVolume
      ∧ (wa ≤ -100 →
          ((calculateFooting (some l) (some w) (some d) fc wa).get).totalVolume ≤ 0))
    ∧ (∀ dia h cc : ℚ, 0 < dia → 0 < h → 1 ≤ cc →
      (calculateColumn Shape.round dia 0 0 (some h) cc wa).isValid = true
      ∧ ((calculateColumn Shape.round dia 0 0 (some h) cc wa).get).totalVolume
          < ((calculateColumn Shape.round dia 0 0 (some h) cc wa).get).baseVolume
      ∧ (wa ≤ -100 →
          ((calculateColumn Shape.round dia 0 0 (some h) cc wa).get).totalVolume ≤ 0))
    ∧ (∀ w dep h cc : ℚ, 0 < w → 0 < h → 1 ≤ cc →
      (calculateColumn Shape.square 0 w dep (some h) cc wa).isValid = true
      ∧ ((calculateColumn Shape.square 0 w dep (some h) cc wa).get).totalVolume
          < ((calculateColumn Shape.square 0 w dep (some h) cc wa).get).baseVolume
      ∧ (wa ≤ -100 →
          ((calculateColumn Shape.square 0 w dep (some h) cc wa).get).totalVolume ≤ 0))
    ∧ (∀ dia th : ℚ, 0 < dia → 0 < th →
      (calculateCircularSlab (some dia) (some th) wa).isValid = true
      ∧ ((calculateCircularSlab (some dia) (some th) wa).get).totalVolume
          < ((calculateCircularSlab (some dia) (some th) wa).get).baseVolume
      ∧ (wa ≤ -100 →
          ((calculateCircularSlab (some dia) (some th) wa).get).totalVolume ≤ 0)) := by
  refine ⟨?_, ?_, ?_, ?_, ?_, ?_⟩
  · intro l w d hl hw hd
    have hcond : ¬(l ≤ 0 ∨ w ≤ 0 ∨ d ≤ 0) := by
      push_neg
      exact ⟨hl, hw, hd⟩
    have hbase : 0 < l * w * d := mul_pos (mul_pos hl hw) hd
    refine ⟨?_, ?_, ?_⟩
    · simp only [calculateRectangularSlab, if_neg hcond]
      rfl
    · simp only [calculateRectangularSlab, if_neg hcond, CalcResult.get]
      exact applyWastage_lt_self _ _ hbase hwa
    · intro h100
      simp only [calculateRectangularSlab, if_neg hcond, CalcResult.get]
      exact applyWastage_nonpos _ _ hbase.le h100
  · intro hd hdep pw pc shape h1 h2 h3
    have hcond : ¬(hd ≤ 0 ∨ hdep ≤ 0 ∨ pc < 1) := by
      push_neg
      exact ⟨h1, h2, h3⟩
    refine ⟨?_, ?_, ?_⟩
    · simp only [calculatePostHole, if_neg hcond]
      rfl
    · intro hb
      simp only [calculatePostHole, if_neg hcond, CalcResult.get] at hb ⊢
      exact applyWastage_lt_self _ _ hb hwa
    · intro h100 hb
      simp only [calculatePostHole, if_neg hcond, CalcResult.get] at hb ⊢
      exact applyWastage_nonpos _ _ hb.le h100
  · intro l w d fc hl hw hd hfc
    have hcond : ¬(l ≤ 0 ∨ w ≤ 0 ∨ d ≤ 0 ∨ fc < 1) := by
      push_neg
      exact ⟨hl, hw, hd, hfc⟩
    have hbase : 0 < l * w * d * fc :=
      mul_pos (mul_pos (mul_pos hl hw) hd) (lt_of_lt_of_le one_pos hfc)
    refine ⟨?_, ?_, ?_⟩
    · simp only [calculateFooting, if_neg hcond]
      rfl
    · simp only [calculateFooting, if_neg hcond, CalcResult.get]
      exact applyWastage_lt_self _ _ hbase hwa
    · intro h100
      simp only [calculateFooting, if_neg hcond, CalcResult.get]
      exact applyWastage_nonpos _ _ hbase.le h100
  · intro dia h cc h1 h2 h3
    have hcond : ¬(h ≤ 0 ∨ cc < 1) := by
      push_neg
      exact ⟨h2, h3⟩
    have hdia : ¬ dia ≤ 0 := not_le.mpr h1
    have hbase : 0 < PI * (dia / 2) ^ 2 * h * cc :=
      mul_pos (mul_pos (mul_pos PI_pos (pow_pos (by linarith) 2)) h2)
        (lt_of_lt_of_le one_pos h3)
    refine ⟨?_, ?_, ?_⟩
    · simp only [calculateColumn, if_neg hcond, if_neg hdia]
      rfl
    · simp only [calculateColumn, if_neg hcond, if_neg hdia, CalcResult.get]
      exact applyWastage_lt_self _ _ hbase hwa
    · intro h100
      simp only [calculateColumn, if_neg hcond, if_neg hdia, CalcResult.get]
      exact applyWastage_nonpos _ _ hbase.le h100
  · intro w dep h cc h1 h2 h3
    have hcond : ¬(h ≤ 0 ∨ cc < 1) := by
      push_neg
      exact ⟨h2, h3⟩
    have hw : ¬ w ≤ 0 := not_le.mpr h1
    have hcd : 0 < (if 0 < dep then dep else w) := by
      split_ifs with hdep
      · exact hdep
      · exact h1
    have hbase : 0 < w * (if 0 < dep then dep else w) * h * cc :=
      mul_pos (mul_pos (mul_pos h1 hcd) h2) (lt_of_lt_of_le one_pos h3)
    refine ⟨?_, ?_, ?_⟩
    · simp only [calculateColumn, if_neg hcond, if_neg hw]
      rfl
    · simp only [calculateColumn, if_neg hcond, if_neg hw, CalcResult.get]
      exact applyWastage_lt_self _ _ hbase hwa
    · intro h100
      simp only [calculateColumn, if_neg hcond, if_neg hw, CalcResult.get]
      exact applyWastage_nonpos _ _ hbase.le h100
  · intro dia th h1 h2
    have hcond : ¬(dia ≤ 0 ∨ th ≤ 0) := by
      push_neg
      exact ⟨h1, h2⟩
    have hbase : 0 < PI * (dia / 2) ^ 2 * th :=
      mul_pos (mul_pos PI_pos (pow_pos (by linarith) 2)) h2
    refine ⟨?_, ?_, ?_⟩
    · simp only [calculateCircularSlab, if_neg hcond]
      rfl
    · simp only [calculateCircularSlab, if_neg hcond, CalcResult.get]
      exact applyWastage_lt_self _ _ hbase hwa
    · intro h100
      simp only [calculateCircularSlab, if_neg hcond, CalcResult.get]
      exact applyWastage_nonpos _ _ hbase.le h100

/-- Witness for the amended C9: a 1 m³ slab with wastage `-50` is accepted
and its total volume drops below the base volume. -/
theorem C9_witness :
    (-50 : ℚ) < 0 ∧ (0:ℚ) < 1
    ∧ (calculateRectangularSlab (some 1) (some 1) (some 1) (-50)).isValid = true
    ∧ ((calculateRectangularSlab (some 1) (some 1) (some 1) (-50)).get).totalVolume
        < ((calculateRectangularSlab (some 1) (some 1) (some 1) (-50)).get).baseVolume := by
  have h := (C9_no_wastage_validation (-50) (by norm_num)).1 1 1 1
    (by norm_num) (by norm_num) (by norm_num)
  exact ⟨by norm_num, by norm_num, h.1, h.2.1⟩

/-- C10: in the 0.3–0.5 m³ band the comparator's $50 decision is priced at
the billed minimum-order volume 0.5 m³, not the requested volume: the
ready-mix side of `costDifference` is `0.5 × priceRange`, the billed
volume is 0.5 with the minimum-order flag set, and the
readymix-vs-either choice is decided by that difference. -/
theorem C10_midband_uses_billed_volume (v : ℚ) (state : Option String)
    (bagPrice : Option ℚ) (h1 : 3/10 ≤ v) (h2 : v < 1/2) :
    (compareBagsVsReadymix (some v) state bagPrice).isValid = true
    ∧ ((compareBagsVsReadymix (some v) state bagPrice).get).readymixVolume = 1/2
    ∧ ((compareBagsVsReadymix (some v) state bagPrice).get).hasMinimumApplied = true
    ∧ ((compareBagsVsReadymix (some v) state bagPrice).get).costDifference
        = comparatorBagAvg v bagPrice
          - (1/2 * (readymixPricing state).min + 1/2 * (readymixPricing state).max) / 2
    ∧ (((compareBagsVsReadymix (some v) state bagPrice).get).recommendation
          = Recommendation.readymix
        ↔ 50 < ((compareBagsVsReadymix (some v) state bagPrice).get).costDifference) := by
  have hv : (0:ℚ) < v := lt_of_lt_of_le (by norm_num) h1
  have hneg : ¬ v ≤ 0 := not_le.mpr hv
  have hmax : max v (1/2 : ℚ) = 1/2 := max_eq_right h2.le
  refine ⟨?_, ?_, ?_, ?_, ?_⟩
  · simp only [compareBagsVsReadymix, if_neg hneg]
    rfl
  · simp only [compareBagsVsReadymix, if_neg hneg, CalcResult.get,
      calculateReadymixCost, READYMIX_MINIMUM_ORDER]
    exact hmax
  · simp only [compareBagsVsReadymix, if_neg hneg, CalcResult.get,
      calculateReadymixCost, READYMIX_MINIMUM_ORDER]
    simp only [decide_eq_true_eq]
    exact h2
  · simp only [compareBagsVsReadymix, if_neg hneg, CalcResult.get,
      calculateReadymixCost, READYMIX_MINIMUM_ORDER, comparatorBagAvg, hmax]
  · have hv3 : ¬ v < 3/10 := not_lt.mpr h1
    have hv8 : v < 8/10 := by linarith
    simp only [compareBagsVsReadymix, if_neg hneg, CalcResult.get]
    rw [if_neg hv3, if_pos hv8]
    split_ifs with hcd
    · simp only [true_iff]
      exact hcd
    · constructor
      · intro hcontr
        exact absurd hcontr (by simp)
      · intro hgt
        exact absurd hgt hcd

/-- Witness for C10 at `v = 2/5` with region code `nsw`. -/
theorem C10_witness :
    (3/10 : ℚ) ≤ 2/5 ∧ (2/5 : ℚ) < 1/2
    ∧ ((compareBagsVsReadymix (some (2/5)) (some "nsw") none).get).readymixVolume = 1/2
    ∧ ((compareBagsVsReadymix (some (2/5)) (some "nsw") none).get).hasMinimumApplied = true := by
  have h := C10_midband_uses_billed_volume (2/5) (some "nsw") none
    (by norm_num) (by norm_num)
  exact ⟨by norm_num, by norm_num, h.2.1, h.2.2.1⟩

end ConcreteCalc
